import Mathlib

/-!
Verification of the Fraud/Anomaly-Detection core (feature engine, scoring
engine, reason engine, ingestion orchestration) against its specification.

The Python source is shallowly embedded:
  * `app/models.py`  → the `Event`, `FeatureRow`, `ScoreRow` structures and
    the `Db` state record (lists of rows plus autoincrement counters);
  * `app/features.py` → `compute_features` (SQLAlchemy window queries become
    list filters over the event table);
  * `app/scoring.py` → `load_artifacts`, `score_feature_vector`,
    `reset_cache` over an explicit artifact-file store and module cache;
  * `app/reasons.py` → `build_reasons` (firing list, stable descending sort,
    truncation to three);
  * `app/main.py`    → `upsert_event_and_features`, `upsert_score_row` and
    the `/score` endpoint pipeline as explicit state transformers.

Machine floats are idealised as rationals; the opaque numeric library
routines the code calls (`math.log`, the trigonometry inside
`haversine_km`, the scikit-learn scaler and model) are passed in as
function parameters, so every theorem quantifies over them.
-/

namespace FraudSystem

/-- One stored transaction event (`app/models.py`, class `Event`).
Timestamps are naive second-precision datetimes modelled as integer
seconds on a linear timeline; `id` is the autoincrement primary key. -/
structure Event where
  id : ℕ
  event_id : String
  user_id : String
  merchant_id : String
  amount : ℚ
  currency : String
  timestamp : ℤ
  lat : ℚ
  lon : ℚ
  device_id : String
  ip : String
  channel : String
deriving Repr, DecidableEq

/-- The computed feature bundle (`app/features.py`, dataclass
`ComputedFeatures`). -/
structure ComputedFeatures where
  log_amount : ℚ
  tx_count_5m : ℕ
  tx_count_1h : ℕ
  spend_1h : ℚ
  is_new_merchant : ℕ
  is_new_device : ℕ
  is_new_ip : ℕ
  distance_from_last_km : ℚ
  speed_kmph : ℚ
  hour_of_day : ℤ
  day_of_week : ℤ
deriving Repr, DecidableEq

/-- Persisted feature row (`app/models.py`, class `FeatureRow`). -/
structure FeatureRow where
  id : ℕ
  event_id_fk : ℕ
  log_amount : ℚ
  tx_count_5m : ℕ
  tx_count_1h : ℕ
  spend_1h : ℚ
  is_new_merchant : ℕ
  is_new_device : ℕ
  is_new_ip : ℕ
  distance_from_last_km : ℚ
  speed_kmph : ℚ
  hour_of_day : ℤ
  day_of_week : ℤ
deriving Repr, DecidableEq

/-- `datetime.hour` on the integer-seconds timeline. -/
def hourOf (ts : ℤ) : ℤ := (ts / 3600) % 24

/-- `datetime.weekday()` (0 = Monday) on the integer-seconds timeline;
the epoch origin of the timeline is a Thursday, hence the offset 3. -/
def weekdayOf (ts : ℤ) : ℤ := (ts / 86400 + 3) % 7

/-- `ORDER BY timestamp DESC ... first()`: the stored event with the
greatest timestamp, earliest-inserted row winning ties. -/
def maxByTimestamp (l : List Event) : Option Event :=
  l.foldl
    (fun acc e =>
      match acc with
      | none => some e
      | some a => if a.timestamp < e.timestamp then some e else some a)
    none

/-- `compute_features` (`app/features.py` lines 33-132).  `db` is the full
`events` table the SQLAlchemy queries run over; `lg` is the opaque
floating-point `math.log`, `hav` the opaque `haversine_km` (its
trigonometry is a numeric-library routine, not core logic). -/
def compute_features (lg : ℚ → ℚ) (hav : ℚ → ℚ → ℚ → ℚ → ℚ)
    (db : List Event) (incoming : Event) : ComputedFeatures :=
  let t := incoming.timestamp
  let window_5m_start := t - 5 * 60
  let window_1h_start := t - 60 * 60
  let recent_5m := db.filter fun e =>
    e.user_id = incoming.user_id ∧ window_5m_start ≤ e.timestamp ∧ e.timestamp < t
  let recent_1h := db.filter fun e =>
    e.user_id = incoming.user_id ∧ window_1h_start ≤ e.timestamp ∧ e.timestamp < t
  let tx_count_5m := recent_5m.length
  let tx_count_1h := recent_1h.length
  let spend_1h := (recent_1h.map Event.amount).sum
  let last_event := maxByTimestamp (db.filter fun e =>
    e.user_id = incoming.user_id ∧ e.timestamp < t)
  let is_new_merchant : ℕ :=
    if db.any (fun e => e.user_id = incoming.user_id ∧
        e.merchant_id = incoming.merchant_id ∧ e.timestamp < t)
    then 0 else 1
  let is_new_device : ℕ :=
    if db.any (fun e => e.user_id = incoming.user_id ∧
        e.device_id = incoming.device_id ∧ e.timestamp < t)
    then 0 else 1
  let is_new_ip : ℕ :=
    if db.any (fun e => e.user_id = incoming.user_id ∧
        e.ip = incoming.ip ∧ e.timestamp < t)
    then 0 else 1
  let kin : ℚ × ℚ :=
    match last_event with
    | none => (0, 0)
    | some le =>
      let d := hav le.lat le.lon incoming.lat incoming.lon
      let dt_seconds := incoming.timestamp - le.timestamp
      (d, if 0 < dt_seconds then d / ((dt_seconds : ℚ) / 3600) else 0)
  let log_amount := if 0 < incoming.amount then lg incoming.amount else 0
  { log_amount := log_amount
    tx_count_5m := tx_count_5m
    tx_count_1h := tx_count_1h
    spend_1h := spend_1h
    is_new_merchant := is_new_merchant
    is_new_device := is_new_device
    is_new_ip := is_new_ip
    distance_from_last_km := kin.1
    speed_kmph := kin.2
    hour_of_day := hourOf incoming.timestamp
    day_of_week := weekdayOf incoming.timestamp }

/-- What `app/scoring.py` can raise: `RuntimeError("Model artifacts
missing...")` when no artifact files exist (spec name: ArtifactMissing),
or the `AttributeError` a Python call on a still-`None` cache field would
raise. -/
inductive ScoringError where
  | artifactMissing : ScoringError
  | nullField : ScoringError
deriving Repr, DecidableEq

/-- The opaque scikit-learn pieces of a published artifact: the scaler's
`transform` and the model's `score_samples`, plus the threshold JSON. -/
structure ArtifactFiles where
  modelFile : Option (List ℚ → ℚ)
  scalerFile : Option (List ℚ → List ℚ)
  thresholdFile : Option (ℚ × List String)

/-- The module-level `_cached` dict of `app/scoring.py` line 11: four
independently nullable slots. -/
structure Cache where
  model : Option (List ℚ → ℚ)
  scaler : Option (List ℚ → List ℚ)
  threshold : Option ℚ
  feature_columns : Option (List String)

/-- `_cached` as the module initialises it: every slot `None`. -/
def Cache.empty : Cache := ⟨none, none, none, none⟩

/-- `load_artifacts` (`app/scoring.py` lines 14-28): return at once when
the cached model is already present; fail when any artifact file is
missing; otherwise fill all four cache slots from the files. -/
def load_artifacts (files : ArtifactFiles) (c : Cache) :
    Except ScoringError Cache :=
  if c.model.isSome then .ok c
  else
    match files.modelFile, files.scalerFile, files.thresholdFile with
    | some m, some s, some (t, fc) =>
        .ok { model := some m, scaler := some s,
              threshold := some t, feature_columns := some fc }
    | _, _, _ => .error .artifactMissing

/-- `feature_columns` (`app/scoring.py` lines 31-33). -/
def feature_columns (files : ArtifactFiles) (c : Cache) :
    Except ScoringError (Cache × List String) := do
  let c ← load_artifacts files c
  match c.feature_columns with
  | some fc => .ok (c, fc)
  | none => .error .nullField

/-- The arithmetic of `score_feature_vector` (`app/scoring.py` lines
39-55) once the artifacts are in hand: scale, negate `score_samples`,
flag non-strictly against the threshold, and normalise the risk with the
degenerate-threshold guard and the two clamping `if`s. -/
def score_core (m : List ℚ → ℚ) (s : List ℚ → List ℚ) (threshold : ℚ)
    (feature_values : List ℚ) : ℚ × ℚ × Bool :=
  let xs := s feature_values
  let anomaly_score := -(m xs)
  let flagged : Bool := anomaly_score ≥ threshold
  let risk : ℚ :=
    if threshold ≤ 0 then 0
    else
      let r := 100 * anomaly_score / threshold
      if r < 0 then 0 else if r > 100 then 100 else r
  (anomaly_score, risk, flagged)

/-- `score_feature_vector` (`app/scoring.py` lines 36-55): load (or reuse)
the cached artifacts, then run the scoring arithmetic. -/
def score_feature_vector (files : ArtifactFiles) (c : Cache)
    (feature_values : List ℚ) :
    Except ScoringError (Cache × (ℚ × ℚ × Bool)) := do
  let c ← load_artifacts files c
  match c.model, c.scaler, c.threshold with
  | some m, some s, some t => .ok (c, score_core m s t feature_values)
  | _, _, _ => .error .nullField

/-- `reset_cache` (`app/scoring.py` lines 58-62). -/
def reset_cache (_c : Cache) : Cache := Cache.empty

/-- One entry of the `reasons` list built by `build_reasons`
(`app/reasons.py`): a dict `{"reason": ..., "detail": ..., "severity": ...}`. -/
structure Reason where
  reason : String
  detail : String
  severity : ℕ
deriving Repr, DecidableEq

/-- Stable insertion step of Python's `sorted(..., key=severity,
reverse=True)`: an element passes over strictly higher severities only,
so original order is kept among equal severities. -/
def insertBySeverityDesc (r : Reason) : List Reason → List Reason
  | [] => [r]
  | h :: t =>
    if r.severity < h.severity then h :: insertBySeverityDesc r t
    else r :: h :: t

/-- Python's stable `sorted(reasons, key=severity, reverse=True)`
(`app/reasons.py` line 45). -/
def sortBySeverityDesc : List Reason → List Reason
  | [] => []
  | r :: rest => insertBySeverityDesc r (sortBySeverityDesc rest)

/-- Stable insertion for `ORDER BY timestamp DESC`. -/
def insertByTsDesc (e : Event) : List Event → List Event
  | [] => [e]
  | h :: t =>
    if e.timestamp < h.timestamp then h :: insertByTsDesc e t
    else e :: h :: t

/-- The user's events ordered most-recent first, as the
`ORDER BY Event.timestamp DESC` query returns them (ties kept in table
order). -/
def sortByTsDesc : List Event → List Event
  | [] => []
  | e :: rest => insertByTsDesc e (sortByTsDesc rest)

/-- The `prior_amounts` query of `app/reasons.py` lines 27-34: amounts of
up to the 30 most recent events of this user strictly before the event's
timestamp, most-recent first. -/
def prior_amounts (db : List Event) (ev : Event) : List ℚ :=
  ((sortByTsDesc (db.filter fun e =>
      e.user_id = ev.user_id ∧ e.timestamp < ev.timestamp)).take 30).map
    Event.amount

/-- The lower-median pick of `app/reasons.py` line 39:
`sorted(vals)[len(vals) // 2]`. -/
def medianOf (vals : List ℚ) : ℚ :=
  (vals.insertionSort (· ≤ ·)).getD (vals.length / 2) 0

/-- The guard of the `amount_spike` rule (`app/reasons.py` lines 36-40):
at least 10 prior amounts, strictly positive lower-median, and current
amount at least four times it. -/
def amount_spike_fires (db : List Event) (ev : Event) : Prop :=
  10 ≤ (prior_amounts db ev).length ∧
    0 < medianOf (prior_amounts db ev) ∧
    4 * medianOf (prior_amounts db ev) ≤ ev.amount

instance (db : List Event) (ev : Event) : Decidable (amount_spike_fires db ev) := by
  unfold amount_spike_fires; infer_instance

/-- The `reasons` list of `app/reasons.py` lines 7-43 before sorting:
each rule appends its dict in the fixed evaluation order. -/
def firing_reasons (db : List Event) (ev : Event) (fr : FeatureRow) :
    List Reason :=
  (if fr.is_new_device = 1 then
    [⟨"new_device", "Device not seen before for this user", 85⟩] else []) ++
  (if fr.is_new_ip = 1 then
    [⟨"new_ip", "IP address not seen before for this user", 80⟩] else []) ++
  (if fr.is_new_merchant = 1 then
    [⟨"new_merchant", "Merchant not seen before for this user", 65⟩] else []) ++
  (if fr.speed_kmph ≥ 900 then
    [⟨"impossible_travel", "Travel speed km/h", 95⟩] else []) ++
  (if fr.tx_count_5m ≥ 3 then
    [⟨"high_velocity_5m", "transactions in 5 minutes", 90⟩] else []) ++
  (if fr.spend_1h ≥ 800 then
    [⟨"high_spend_1h", "spend in last hour", 70⟩] else []) ++
  (if amount_spike_fires db ev then
    [⟨"amount_spike", "Amount is at least 4x user median", 75⟩] else [])

/-- `build_reasons` (`app/reasons.py` lines 6-46): the firing list, stably
sorted by severity descending, truncated to the top three. -/
def build_reasons (db : List Event) (ev : Event) (fr : FeatureRow) :
    List Reason :=
  (sortBySeverityDesc (firing_reasons db ev fr)).take 3

/-- Position of each rule in the fixed evaluation order of
`build_reasons`; used to state the tie-break contract. -/
def ruleIndex (tag : String) : ℕ :=
  if tag = "new_device" then 0
  else if tag = "new_ip" then 1
  else if tag = "new_merchant" then 2
  else if tag = "impossible_travel" then 3
  else if tag = "high_velocity_5m" then 4
  else if tag = "high_spend_1h" then 5
  else if tag = "amount_spike" then 6
  else 7

/-- Persisted score row (`app/models.py`, class `ScoreRow`); the reason
list stands for the serialised `reasons_json`. -/
structure ScoreRow where
  id : ℕ
  event_id_fk : ℕ
  anomaly_score : ℚ
  risk_score : ℚ
  flagged : ℕ
  reasons_json : List Reason
  created_at : ℤ
deriving Repr, DecidableEq

/-- The database the endpoints mutate: the three tables plus their
autoincrement counters. -/
structure Db where
  events : List Event
  features : List FeatureRow
  scores : List ScoreRow
  nextEventId : ℕ
  nextFeatureId : ℕ
  nextScoreId : ℕ
deriving Repr, DecidableEq

def Db.empty : Db := ⟨[], [], [], 1, 1, 1⟩

/-- `IngestEventRequest` (`app/main.py` lines 22-33) after transport-level
validation.  `timestamp` is the result of `isoparse` + naive-local
conversion: `none` models an unparsable timestamp string. -/
structure Request where
  event_id : String
  user_id : String
  merchant_id : String
  amount : ℚ
  currency : String
  timestamp : Option ℤ
  lat : ℚ
  lon : ℚ
  device_id : String
  ip : String
  channel : String
deriving Repr, DecidableEq

/-- Errors an endpoint surfaces: `HTTPException(code, detail)` or a
propagated scoring failure. -/
inductive ApiError where
  | http (code : ℕ) (detail : String) : ApiError
  | scoring (e : ScoringError) : ApiError
deriving Repr, DecidableEq

instance {ε α : Type} [DecidableEq ε] [DecidableEq α] :
    DecidableEq (Except ε α) := fun x y =>
  match x, y with
  | .ok a, .ok b =>
    if h : a = b then isTrue (h ▸ rfl)
    else isFalse (fun he => h (Except.ok.inj he))
  | .error a, .error b =>
    if h : a = b then isTrue (h ▸ rfl)
    else isFalse (fun he => h (Except.error.inj he))
  | .ok _, .error _ => isFalse (fun he => Except.noConfusion he)
  | .error _, .ok _ => isFalse (fun he => Except.noConfusion he)

/-- `upsert_event_and_features` (`app/main.py` lines 121-175).  An already
stored identifier returns the stored event and feature row untouched; a
new one parses the timestamp, commits the event, computes features over
the table that now contains the event itself, and commits the feature
row. -/
def upsert_event_and_features (lg : ℚ → ℚ) (hav : ℚ → ℚ → ℚ → ℚ → ℚ)
    (db : Db) (req : Request) :
    Except ApiError (Db × Event × FeatureRow) :=
  match db.events.find? (fun e => e.event_id == req.event_id) with
  | some existing =>
    match db.features.find? (fun fr => fr.event_id_fk == existing.id) with
    | some fr => .ok (db, existing, fr)
    | none => .error (.http 500 "event exists but features missing")
  | none =>
    match req.timestamp with
    | none => .error (.http 400 "invalid timestamp format")
    | some ts =>
      let ev : Event :=
        { id := db.nextEventId
          event_id := req.event_id
          user_id := req.user_id
          merchant_id := req.merchant_id
          amount := req.amount
          currency := req.currency
          timestamp := ts
          lat := req.lat
          lon := req.lon
          device_id := req.device_id
          ip := req.ip
          channel := req.channel }
      let db1 : Db := { db with
        events := db.events ++ [ev], nextEventId := db.nextEventId + 1 }
      let feats := compute_features lg hav db1.events ev
      let fr : FeatureRow :=
        { id := db1.nextFeatureId
          event_id_fk := ev.id
          log_amount := feats.log_amount
          tx_count_5m := feats.tx_count_5m
          tx_count_1h := feats.tx_count_1h
          spend_1h := feats.spend_1h
          is_new_merchant := feats.is_new_merchant
          is_new_device := feats.is_new_device
          is_new_ip := feats.is_new_ip
          distance_from_last_km := feats.distance_from_last_km
          speed_kmph := feats.speed_kmph
          hour_of_day := feats.hour_of_day
          day_of_week := feats.day_of_week }
      let db2 : Db := { db1 with
        features := db1.features ++ [fr], nextFeatureId := db1.nextFeatureId + 1 }
      .ok (db2, ev, fr)

/-- Replace the first list entry satisfying `p` (the single row SQLAlchemy
hands back gets mutated in place). -/
def updateFirst (p : α → Bool) (f : α → α) : List α → List α
  | [] => []
  | x :: xs => if p x then f x :: xs else x :: updateFirst p f xs

/-- `upsert_score_row` (`app/main.py` lines 178-199): insert a fresh score
row or overwrite the existing one for this event. -/
def upsert_score_row (db : Db) (ev : Event) (anomaly_score risk_score : ℚ)
    (flagged : Bool) (reasons : List Reason) (now : ℤ) : Db :=
  match db.scores.find? (fun sr => sr.event_id_fk == ev.id) with
  | none =>
    let sr : ScoreRow :=
      { id := db.nextScoreId
        event_id_fk := ev.id
        anomaly_score := anomaly_score
        risk_score := risk_score
        flagged := if flagged then 1 else 0
        reasons_json := reasons
        created_at := now }
    { db with scores := db.scores ++ [sr], nextScoreId := db.nextScoreId + 1 }
  | some _ =>
    let upd := fun (sr : ScoreRow) =>
      { sr with
        anomaly_score := anomaly_score
        risk_score := risk_score
        flagged := if flagged then (1 : ℕ) else 0
        reasons_json := reasons
        created_at := now }
    { db with
      scores := updateFirst (fun sr => sr.event_id_fk == ev.id) upd db.scores }

/-- `getattr(fr, c)` for the feature-column names the artifact may
declare (`app/main.py` line 268); an unknown name raises
`AttributeError`. -/
def frGet (fr : FeatureRow) (c : String) : Option ℚ :=
  if c = "log_amount" then some fr.log_amount
  else if c = "tx_count_5m" then some (fr.tx_count_5m : ℚ)
  else if c = "tx_count_1h" then some (fr.tx_count_1h : ℚ)
  else if c = "spend_1h" then some fr.spend_1h
  else if c = "is_new_merchant" then some (fr.is_new_merchant : ℚ)
  else if c = "is_new_device" then some (fr.is_new_device : ℚ)
  else if c = "is_new_ip" then some (fr.is_new_ip : ℚ)
  else if c = "distance_from_last_km" then some fr.distance_from_last_km
  else if c = "speed_kmph" then some fr.speed_kmph
  else if c = "hour_of_day" then some (fr.hour_of_day : ℚ)
  else if c = "day_of_week" then some (fr.day_of_week : ℚ)
  else none

/-- The `/score` response body (`app/main.py`, `ScoreResponse`). -/
structure ScoreResponse where
  event_id : String
  anomaly_score : ℚ
  risk_score : ℚ
  flagged : Bool
  reasons : List Reason
deriving Repr, DecidableEq

/-- The `/score` endpoint (`app/main.py` lines 261-283) as a state
transformer: every `db.commit()` the pipeline has already executed
persists even when a later step raises, so the post-state is returned
alongside the outcome. -/
def score_endpoint (lg : ℚ → ℚ) (hav : ℚ → ℚ → ℚ → ℚ → ℚ)
    (files : ArtifactFiles) (cache : Cache) (db : Db) (req : Request)
    (now : ℤ) : Db × Cache × Except ApiError ScoreResponse :=
  match upsert_event_and_features lg hav db req with
  | .error e => (db, cache, .error e)
  | .ok (db2, ev, fr) =>
    match feature_columns files cache with
    | .error e => (db2, cache, .error (.scoring e))
    | .ok (cache1, cols) =>
      match cols.mapM (frGet fr) with
      | none => (db2, cache1, .error (.http 500 "AttributeError"))
      | some feature_values =>
        match score_feature_vector files cache1 feature_values with
        | .error e => (db2, cache1, .error (.scoring e))
        | .ok (cache2, (anomaly_score, risk_score, flagged)) =>
          let reasons := build_reasons db2.events ev fr
          let db3 := upsert_score_row db2 ev anomaly_score risk_score
            flagged reasons now
          (db3, cache2,
            .ok { event_id := ev.event_id
                  anomaly_score := anomaly_score
                  risk_score := risk_score
                  flagged := flagged
                  reasons := reasons })

/-! ## Interleaving model of the shared module cache

`app/scoring.py` keeps the artifacts in the module-level `_cached` dict
and `reset_cache` clears its four slots one by one with no lock, while
`score_feature_vector` re-reads individual slots during a single call.
To examine what a scoring call can observe concurrently with a retrain,
the shared state is modelled with one atomic action per Python
statement touching `_cached` or the artifact files; slot contents are
abbreviated to the version number of the artifact they came from. -/

/-- The four slots of the `_cached` dict. -/
inductive Slot where
  | model : Slot
  | scaler : Slot
  | threshold : Slot
  | fcols : Slot
deriving Repr, DecidableEq

/-- One atomic action on the shared state: a retrain publishing artifact
files, `reset_cache` clearing one slot, `load_artifacts` filling one slot
from the files on disk, or a scoring call reading one slot and using the
value. -/
inductive Act where
  | writeFiles (v : ℕ) : Act
  | resetSlot (s : Slot) : Act
  | loadSlot (s : Slot) : Act
  | readSlot (s : Slot) : Act
deriving Repr, DecidableEq

/-- Shared state: the artifact version on disk, the four cache slots
(`none` is Python's `None`; `some v` is the object loaded from artifact
version `v`), and a log of every value each thread's reads observed. -/
structure MState where
  filesVer : ℕ
  model : Option ℕ
  scaler : Option ℕ
  threshold : Option ℕ
  fcols : Option ℕ
  obs : List (ℕ × Slot × Option ℕ)
deriving Repr, DecidableEq

def getSlot (st : MState) : Slot → Option ℕ
  | .model => st.model
  | .scaler => st.scaler
  | .threshold => st.threshold
  | .fcols => st.fcols

def setSlot (st : MState) (s : Slot) (v : Option ℕ) : MState :=
  match s with
  | .model => { st with model := v }
  | .scaler => { st with scaler := v }
  | .threshold => { st with threshold := v }
  | .fcols => { st with fcols := v }

/-- Effect of one thread-tagged atomic action. -/
def stepAct (st : MState) : ℕ × Act → MState
  | (_, .writeFiles v) => { st with filesVer := v }
  | (_, .resetSlot s) => setSlot st s none
  | (_, .loadSlot s) => setSlot st s (some st.filesVer)
  | (tid, .readSlot s) => { st with obs := st.obs ++ [(tid, s, getSlot st s)] }

/-- Run a whole interleaved schedule. -/
def runSched (init : MState) (sched : List (ℕ × Act)) : MState :=
  sched.foldl stepAct init

/-- The reads one `score_feature_vector` call performs when
`load_artifacts` finds the cached model present (`app/scoring.py` lines
15, 40, 42, 43): the warm-cache check, then scaler, model and threshold,
each read separately from `_cached`. -/
def scorerProg : List Act :=
  [.readSlot .model, .readSlot .scaler, .readSlot .model,
   .readSlot .threshold]

/-- What `/retrain` does to the shared state (`app/main.py` lines
317-322 and `app/scoring.py` lines 58-62): publish new artifact files,
then clear the four cache slots one at a time. -/
def retrainProg : List Act :=
  [.writeFiles 2, .resetSlot .model, .resetSlot .scaler,
   .resetSlot .threshold, .resetSlot .fcols]

/-- A second scoring call arriving after the reset: its `load_artifacts`
check reads `None`, so it refills all four slots from disk (lines 21-28)
and then performs its own scoring reads. -/
def reloaderProg : List Act :=
  [.readSlot .model, .loadSlot .model, .loadSlot .scaler,
   .loadSlot .threshold, .loadSlot .fcols, .readSlot .scaler,
   .readSlot .model, .readSlot .threshold]

/-- Restriction of a schedule to one thread's actions. -/
def projThread (tid : ℕ) (sched : List (ℕ × Act)) : List Act :=
  sched.filterMap (fun p => if p.1 = tid then some p.2 else none)

/-- Initial state: artifact version 1 is on disk and fully cached. -/
def initWarm : MState := ⟨1, some 1, some 1, some 1, some 1, []⟩

/-- The interleaving: scoring call (thread 1) reads the check and the
scaler, a retrain (thread 2) publishes version 2 and resets the cache, a
second scoring call (thread 3) reloads the cache with version 2, and
thread 1 then finishes its call reading model and threshold. -/
def hybridSched : List (ℕ × Act) :=
  [(1, .readSlot .model), (1, .readSlot .scaler),
   (2, .writeFiles 2), (2, .resetSlot .model), (2, .resetSlot .scaler),
   (2, .resetSlot .threshold), (2, .resetSlot .fcols),
   (3, .readSlot .model), (3, .loadSlot .model), (3, .loadSlot .scaler),
   (3, .loadSlot .threshold), (3, .loadSlot .fcols),
   (3, .readSlot .scaler), (3, .readSlot .model), (3, .readSlot .threshold),
   (1, .readSlot .model), (1, .readSlot .threshold)]

/-! ## Concrete fixtures used by witness theorems -/

/-- A trivial stand-in for the opaque `math.log` routine. -/
def zeroLog : ℚ → ℚ := fun _ => 0

/-- A trivial stand-in for the opaque `haversine_km` trigonometry. -/
def zeroHav : ℚ → ℚ → ℚ → ℚ → ℚ := fun _ _ _ _ => 0

/-- A concrete well-formed ingest request. -/
def sampleReq : Request :=
  ⟨"E1", "u", "m", 250, "USD", some 1000, 0, 0, "d", "ip", "web"⟩

/-- The event `sampleReq` stores into an empty database. -/
def sampleEvent : Event :=
  ⟨1, "E1", "u", "m", 250, "USD", 1000, 0, 0, "d", "ip", "web"⟩

/-- The feature row computed for `sampleEvent` over an empty history. -/
def sampleFeatureRow : FeatureRow := ⟨1, 1, 0, 0, 0, 0, 1, 1, 1, 0, 0, 0, 3⟩

/-- The database state after ingesting `sampleReq` into `Db.empty`. -/
def sampleDb1 : Db := ⟨[sampleEvent], [sampleFeatureRow], [], 2, 2, 1⟩

/-! ## Claim theorems -/

/-- The two sequential clamping `if`s of `app/scoring.py` lines 50-53
agree with a [0, 100] clamp written with `max`/`min`. -/
theorem clamp_ifs_eq_max_min (r : ℚ) :
    (if r < 0 then (0 : ℚ) else if r > 100 then 100 else r) =
      max 0 (min 100 r) := by
  by_cases h2 : r < 0
  · rw [if_pos h2, max_eq_left (le_trans (min_le_right _ _) (le_of_lt h2))]
  · rw [if_neg h2]
    by_cases h3 : r > 100
    · rw [if_pos h3, min_eq_left (le_of_lt h3),
        max_eq_right (by norm_num : (0 : ℚ) ≤ 100)]
    · rw [if_neg h3, min_eq_right (le_of_not_lt h3),
        max_eq_right (le_of_not_lt h2)]

/-- C1: for every model, scaler, threshold and feature vector, the risk
score returned by `score_feature_vector`'s arithmetic is 0 when the
threshold is ≤ 0 and otherwise equals `100 * rawScore / threshold`
clamped into [0, 100]; consequently it always lies in [0, 100]. -/
theorem risk_score_normalized (m : List ℚ → ℚ) (s : List ℚ → List ℚ)
    (threshold : ℚ) (vals : List ℚ) :
    (score_core m s threshold vals).2.1 =
      (if threshold ≤ 0 then 0
       else max 0 (min 100 (100 * (score_core m s threshold vals).1 / threshold))) ∧
    0 ≤ (score_core m s threshold vals).2.1 ∧
    (score_core m s threshold vals).2.1 ≤ 100 := by
  unfold score_core
  dsimp only
  by_cases h1 : threshold ≤ 0
  · simp [h1]
  · rw [if_neg h1, if_neg h1, clamp_ifs_eq_max_min]
    exact ⟨rfl, le_max_left _ _, max_le (by norm_num) (min_le_left _ _)⟩

/-- C8: the flagged boolean equals `rawScore >= threshold`, non-strict,
so a raw score exactly at the threshold is flagged. -/
theorem flagged_iff_raw_at_least_threshold (m : List ℚ → ℚ)
    (s : List ℚ → List ℚ) (threshold : ℚ) (vals : List ℚ) :
    (score_core m s threshold vals).2.2 = true ↔
      threshold ≤ (score_core m s threshold vals).1 := by
  unfold score_core
  dsimp only
  rw [decide_eq_true_iff]

/-- An empty cache plus any missing artifact file makes `load_artifacts`
raise the artifact-missing error. -/
theorem load_artifacts_missing (files : ArtifactFiles) (c : Cache)
    (hc : c.model = none)
    (hf : files.modelFile = none ∨ files.scalerFile = none ∨
      files.thresholdFile = none) :
    load_artifacts files c = .error .artifactMissing := by
  unfold load_artifacts
  rw [hc]
  simp only [Option.isSome_none, Bool.false_eq_true, if_false]
  rcases hf with h | h | h <;> rw [h] <;>
    cases files.modelFile <;> cases files.scalerFile <;>
    cases files.thresholdFile <;> simp_all

/-- C7: with the module cache still empty (no artifact ever loaded) and
any one of the three artifact files absent, `load_artifacts`,
`score_feature_vector` and `feature_columns` all fail with the
artifact-missing error — scoring never silently produces a score. -/
theorem scoring_fails_when_artifacts_missing (files : ArtifactFiles)
    (c : Cache) (vals : List ℚ) (hc : c.model = none)
    (hf : files.modelFile = none ∨ files.scalerFile = none ∨
      files.thresholdFile = none) :
    load_artifacts files c = .error .artifactMissing ∧
    score_feature_vector files c vals = .error .artifactMissing ∧
    feature_columns files c = .error .artifactMissing := by
  have hload := load_artifacts_missing files c hc hf
  refine ⟨hload, ?_, ?_⟩
  · unfold score_feature_vector
    rw [hload]
    rfl
  · unfold feature_columns
    rw [hload]
    rfl

/-- C7 witness: a concrete empty cache and artifact store. -/
theorem scoring_fails_when_artifacts_missing_witness :
    load_artifacts ⟨none, none, none⟩ Cache.empty = .error .artifactMissing ∧
    score_feature_vector ⟨none, none, none⟩ Cache.empty [1, 2] =
      .error .artifactMissing ∧
    feature_columns ⟨none, none, none⟩ Cache.empty =
      .error .artifactMissing :=
  scoring_fails_when_artifacts_missing ⟨none, none, none⟩ Cache.empty [1, 2]
    rfl (Or.inl rfl)

/-- C10: the 5-minute window count never exceeds the 1-hour window count,
since the 5-minute window is a sub-interval of the 1-hour window evaluated
over the same event table in one `compute_features` run. -/
theorem tx_counts_monotone (lg : ℚ → ℚ) (hav : ℚ → ℚ → ℚ → ℚ → ℚ)
    (db : List Event) (incoming : Event) :
    (compute_features lg hav db incoming).tx_count_5m ≤
      (compute_features lg hav db incoming).tx_count_1h := by
  simp only [compute_features]
  refine List.Sublist.length_le (List.monotone_filter_right _ ?_)
  intro e he
  have h := of_decide_eq_true he
  exact decide_eq_true ⟨h.1, by constructor <;> [linarith [h.2.1]; exact h.2.2]⟩

/-- Pre-restricting the event table to events strictly before `t` does not
change a filter whose predicate already requires `timestamp < t`. -/
theorem filter_of_filter_earlier (t : ℤ) (p : Event → Bool)
    (hp : ∀ e, p e = true → e.timestamp < t) (db : List Event) :
    (db.filter fun e => e.timestamp < t).filter p = db.filter p := by
  induction db with
  | nil => rfl
  | cons a l ih =>
    by_cases hta : a.timestamp < t
    · simp only [List.filter_cons, decide_eq_true hta, if_true, ih]
    · have hpa : p a = false := by
        cases h : p a
        · rfl
        · exact absurd (hp a h) hta
      simp only [List.filter_cons, decide_eq_false hta, hpa, if_false,
        Bool.false_eq_true, ih]

/-- Same restriction property for the existence (`any`) queries. -/
theorem any_of_filter_earlier (t : ℤ) (p : Event → Bool)
    (hp : ∀ e, p e = true → e.timestamp < t) (db : List Event) :
    (db.filter fun e => e.timestamp < t).any p = db.any p := by
  induction db with
  | nil => rfl
  | cons a l ih =>
    by_cases hta : a.timestamp < t
    · simp only [List.filter_cons, decide_eq_true hta, if_true, List.any_cons, ih]
    · have hpa : p a = false := by
        cases h : p a
        · rfl
        · exact absurd (hp a h) hta
      simp only [List.filter_cons, decide_eq_false hta, if_false,
        Bool.false_eq_true, List.any_cons, hpa, Bool.false_or, ih]

/-- C2: `compute_features` only consults events strictly before the
incoming event's timestamp — deleting every event at or after `t` from
the table changes nothing (first conjunct), and in particular the
incoming event itself, which `upsert_event_and_features` commits to the
table before computing features, never participates in any window
aggregate, novelty flag or kinematics lookup (second conjunct). -/
theorem compute_features_ignores_future (lg : ℚ → ℚ)
    (hav : ℚ → ℚ → ℚ → ℚ → ℚ) (db : List Event) (incoming : Event) :
    compute_features lg hav
        (db.filter fun e => e.timestamp < incoming.timestamp) incoming =
      compute_features lg hav db incoming ∧
    compute_features lg hav (db ++ [incoming]) incoming =
      compute_features lg hav db incoming := by
  constructor
  · simp only [compute_features]
    rw [filter_of_filter_earlier _ _ (fun e he => (of_decide_eq_true he).2.2),
      filter_of_filter_earlier _ _ (fun e he => (of_decide_eq_true he).2.2),
      filter_of_filter_earlier _ _ (fun e he => (of_decide_eq_true he).2),
      any_of_filter_earlier _ _ (fun e he => (of_decide_eq_true he).2.2),
      any_of_filter_earlier _ _ (fun e he => (of_decide_eq_true he).2.2),
      any_of_filter_earlier _ _ (fun e he => (of_decide_eq_true he).2.2)]
  · simp only [compute_features]
    simp [List.filter_append, List.any_append, List.filter_cons,
      List.any_cons, lt_irrefl]

/-- `find?` skips a whole first segment in which nothing matches. -/
theorem find?_append_of_none {α : Type} (p : α → Bool) (l₁ l₂ : List α)
    (h : l₁.find? p = none) : (l₁ ++ l₂).find? p = l₂.find? p := by
  induction l₁ with
  | nil => rfl
  | cons a l ih =>
    cases hpa : p a with
    | true =>
      rw [List.find?_cons_of_pos _ hpa] at h
      exact absurd h (by simp)
    | false =>
      rw [List.find?_cons_of_neg _ (by simp [hpa])] at h
      rw [List.cons_append, List.find?_cons_of_neg _ (by simp [hpa])]
      exact ih h

/-- C5: re-submitting an event identifier that is already stored is a
no-op returning the previously computed result.  Whatever a first
`upsert_event_and_features` call produced, running it again on the
resulting database returns the same event and feature row and leaves the
database (in particular the stored feature vector) unchanged; nothing is
recomputed.  Well-formedness asks that stored feature rows only reference
already-allocated event ids, which ingestion itself preserves. -/
theorem upsert_idempotent (lg : ℚ → ℚ) (hav : ℚ → ℚ → ℚ → ℚ → ℚ)
    (db : Db) (req : Request)
    (hwf : ∀ r ∈ db.features, r.event_id_fk < db.nextEventId)
    (db1 : Db) (ev : Event) (fr : FeatureRow)
    (h : upsert_event_and_features lg hav db req = .ok (db1, ev, fr)) :
    upsert_event_and_features lg hav db1 req = .ok (db1, ev, fr) := by
  unfold upsert_event_and_features at h ⊢
  split at h
  case h_1 existing hfind =>
    split at h
    case h_1 fr0 hfr =>
      simp only [Except.ok.injEq, Prod.mk.injEq] at h
      obtain ⟨h1, h2, h3⟩ := h
      subst h1; subst h2; subst h3
      rw [hfind]
      dsimp only
      rw [hfr]
    case h_2 hfr => exact absurd h (by simp)
  case h_2 hfind =>
    split at h
    case h_1 hts => exact absurd h (by simp)
    case h_2 ts hts =>
      simp only [Except.ok.injEq, Prod.mk.injEq] at h
      obtain ⟨h1, h2, h3⟩ := h
      subst h1; subst h2; subst h3
      dsimp only
      rw [find?_append_of_none _ _ _ hfind]
      dsimp only [List.find?]
      simp only [beq_self_eq_true, if_true]
      have hfeat : db.features.find? (fun r => r.event_id_fk == db.nextEventId) =
          none := by
        rw [List.find?_eq_none]
        intro x hx
        simp [Nat.ne_of_lt (hwf x hx)]
      rw [find?_append_of_none _ _ _ hfeat]
      dsimp only [List.find?]
      simp only [beq_self_eq_true, if_true]

/-- C5 witness: ingesting `sampleReq` into the empty database and then
re-submitting it returns the stored row and changes nothing. -/
theorem upsert_idempotent_witness :
    upsert_event_and_features zeroLog zeroHav sampleDb1 sampleReq =
      .ok (sampleDb1, sampleEvent, sampleFeatureRow) :=
  upsert_idempotent zeroLog zeroHav Db.empty sampleReq
    (by intro r hr; simp [Db.empty] at hr)
    sampleDb1 sampleEvent sampleFeatureRow (by decide)

/-- A successful ingestion leaves the returned feature row stored and the
scores table untouched, in both the found-existing and the freshly
inserted branch. -/
theorem upsert_ok_facts (lg : ℚ → ℚ) (hav : ℚ → ℚ → ℚ → ℚ → ℚ)
    (db : Db) (req : Request) (db2 : Db) (ev : Event) (fr : FeatureRow)
    (h : upsert_event_and_features lg hav db req = .ok (db2, ev, fr)) :
    fr ∈ db2.features ∧ db2.scores = db.scores := by
  unfold upsert_event_and_features at h
  split at h
  case h_1 existing hfind =>
    split at h
    case h_1 fr0 hfr =>
      simp only [Except.ok.injEq, Prod.mk.injEq] at h
      obtain ⟨h1, h2, h3⟩ := h
      subst h1; subst h2; subst h3
      exact ⟨List.mem_of_find?_eq_some hfr, rfl⟩
    case h_2 hfr => exact absurd h (by simp)
  case h_2 hfind =>
    split at h
    case h_1 hts => exact absurd h (by simp)
    case h_2 ts hts =>
      simp only [Except.ok.injEq, Prod.mk.injEq] at h
      obtain ⟨h1, h2, h3⟩ := h
      subst h1; subst h2; subst h3
      exact ⟨List.mem_append_right _ (List.mem_singleton_self _), rfl⟩

/-- C6 counterexample: the `/score` pipeline is not atomic across an
event's derived records.  Scoring a fresh event with no artifacts
published fails after feature computation (the call returns
ArtifactMissing), yet the freshly computed feature row is already
committed — a derived record of the event persists, contradicting the
claim that a scoring failure leaves none. -/
theorem pipeline_not_atomic_counterexample :
    (score_endpoint zeroLog zeroHav ⟨none, none, none⟩ Cache.empty Db.empty
        sampleReq 0).2.2 = .error (.scoring .artifactMissing) ∧
    (score_endpoint zeroLog zeroHav ⟨none, none, none⟩ Cache.empty Db.empty
        sampleReq 0).1.features = [sampleFeatureRow] := by
  constructor <;> decide

/-- C6 (amended): commits are interleaved with computation, so atomicity
only holds for the score/reason record.  When scoring fails because no
artifact is published, the event and its feature row remain committed
while no score row (hence no reason list) is written — the database's
scores table is exactly what it was before the call. -/
theorem pipeline_partial_commit (lg : ℚ → ℚ) (hav : ℚ → ℚ → ℚ → ℚ → ℚ)
    (files : ArtifactFiles) (cache : Cache) (db : Db) (req : Request)
    (now : ℤ) (hcache : cache.model = none)
    (hfiles : files.modelFile = none ∨ files.scalerFile = none ∨
      files.thresholdFile = none)
    (db2 : Db) (ev : Event) (fr : FeatureRow)
    (hup : upsert_event_and_features lg hav db req = .ok (db2, ev, fr)) :
    score_endpoint lg hav files cache db req now =
      (db2, cache, .error (.scoring .artifactMissing)) ∧
    fr ∈ db2.features ∧ db2.scores = db.scores := by
  obtain ⟨hmem, hscores⟩ := upsert_ok_facts lg hav db req db2 ev fr hup
  refine ⟨?_, hmem, hscores⟩
  unfold score_endpoint
  rw [hup]
  have hfc : feature_columns files cache = .error .artifactMissing := by
    unfold feature_columns
    rw [load_artifacts_missing files cache hcache hfiles]
    rfl
  rw [hfc]

/-- C6 (amended) witness: the concrete fresh-event run with no published
artifacts. -/
theorem pipeline_partial_commit_witness :
    score_endpoint zeroLog zeroHav ⟨none, none, none⟩ Cache.empty Db.empty
        sampleReq 0 =
      (sampleDb1, Cache.empty, .error (.scoring .artifactMissing)) ∧
    sampleFeatureRow ∈ sampleDb1.features ∧
    sampleDb1.scores = Db.empty.scores :=
  pipeline_partial_commit zeroLog zeroHav ⟨none, none, none⟩ Cache.empty
    Db.empty sampleReq 0 rfl (Or.inl rfl)
    sampleDb1 sampleEvent sampleFeatureRow (by decide)

/-- C3: `build_reasons` returns at most 3 reasons; they are ordered by
severity descending with equal severities ordered by the rule's position
in the fixed evaluation order (the stable sort keeps firing order); every
returned reason is a firing rule; and anything truncated away has
severity no higher than everything kept. -/
theorem build_reasons_top3_sorted (db : List Event) (ev : Event)
    (fr : FeatureRow) :
    (build_reasons db ev fr).length ≤ 3 ∧
    List.Pairwise (fun a b => b.severity < a.severity ∨
      (a.severity = b.severity ∧ ruleIndex a.reason < ruleIndex b.reason))
      (build_reasons db ev fr) ∧
    (∀ r ∈ build_reasons db ev fr, r ∈ firing_reasons db ev fr) ∧
    (∀ r ∈ firing_reasons db ev fr, r ∉ build_reasons db ev fr →
      ∀ q ∈ build_reasons db ev fr, r.severity ≤ q.severity) := by
  by_cases h1 : fr.is_new_device = 1 <;>
  by_cases h2 : fr.is_new_ip = 1 <;>
  by_cases h3 : fr.is_new_merchant = 1 <;>
  by_cases h4 : fr.speed_kmph ≥ 900 <;>
  by_cases h5 : fr.tx_count_5m ≥ 3 <;>
  by_cases h6 : fr.spend_1h ≥ 800 <;>
  by_cases h7 : amount_spike_fires db ev <;>
  simp only [build_reasons, firing_reasons, h1, h2, h3, h4, h5, h6, h7,
    if_true, if_false, ite_true, ite_false, List.nil_append,
    List.append_nil, List.cons_append, List.singleton_append] <;>
  decide

/-- C3 witness: a feature row on which the three novelty rules fire. -/
theorem build_reasons_top3_sorted_witness :
    (build_reasons [] sampleEvent sampleFeatureRow).length ≤ 3 ∧
    List.Pairwise (fun a b => b.severity < a.severity ∨
      (a.severity = b.severity ∧ ruleIndex a.reason < ruleIndex b.reason))
      (build_reasons [] sampleEvent sampleFeatureRow) ∧
    (∀ r ∈ build_reasons [] sampleEvent sampleFeatureRow,
      r ∈ firing_reasons [] sampleEvent sampleFeatureRow) ∧
    (∀ r ∈ firing_reasons [] sampleEvent sampleFeatureRow,
      r ∉ build_reasons [] sampleEvent sampleFeatureRow →
      ∀ q ∈ build_reasons [] sampleEvent sampleFeatureRow,
        r.severity ≤ q.severity) :=
  build_reasons_top3_sorted [] sampleEvent sampleFeatureRow

/-- Membership in a conditional singleton used by the rule branches. -/
theorem mem_ite_singleton {c : Prop} [Decidable c] {x a : Reason} :
    (a ∈ (if c then [x] else [])) ↔ (c ∧ a = x) := by
  split <;> simp_all

/-- C4: the `amount_spike` rule emits (with severity 75, the only
severity it ever emits) exactly when the user has at least 10 prior
amounts among the up-to-30 most recent strictly-earlier events, the
lower-median (index `n / 2` of the ascending sort) of those amounts is
strictly positive, and the current amount is at least 4 times it. -/
theorem amount_spike_characterization (db : List Event) (ev : Event)
    (fr : FeatureRow) :
    ((∃ d, (⟨"amount_spike", d, 75⟩ : Reason) ∈ firing_reasons db ev fr) ↔
      (10 ≤ (prior_amounts db ev).length ∧
        0 < medianOf (prior_amounts db ev) ∧
        4 * medianOf (prior_amounts db ev) ≤ ev.amount)) ∧
    (∀ r ∈ firing_reasons db ev fr, r.reason = "amount_spike" →
      r.severity = 75) := by
  constructor
  · constructor
    · rintro ⟨d, hd⟩
      simp only [firing_reasons, List.mem_append, mem_ite_singleton,
        Reason.mk.injEq] at hd
      rcases hd with ((((((h | h) | h) | h) | h) | h) | h) <;>
        first
          | (exact h.1)
          | (exact absurd h.2.1 (by decide))
    · intro hcond
      refine ⟨"Amount is at least 4x user median", ?_⟩
      simp only [firing_reasons, List.mem_append, mem_ite_singleton,
        Reason.mk.injEq]
      exact Or.inr ⟨⟨hcond.1, hcond.2.1, hcond.2.2⟩, trivial⟩
  · intro r hr htag
    simp only [firing_reasons, List.mem_append, mem_ite_singleton] at hr
    rcases hr with ((((((h | h) | h) | h) | h) | h) | h) <;>
      obtain ⟨hc, hreq⟩ := h <;> subst hreq <;>
      first
        | rfl
        | (exact absurd htag (by decide))

/-- C4 witness: concrete instantiation over an empty history, where the
rule must not fire because fewer than 10 prior amounts exist. -/
theorem amount_spike_characterization_witness :
    ((∃ d, (⟨"amount_spike", d, 75⟩ : Reason) ∈
        firing_reasons [] sampleEvent sampleFeatureRow) ↔
      (10 ≤ (prior_amounts [] sampleEvent).length ∧
        0 < medianOf (prior_amounts [] sampleEvent) ∧
        4 * medianOf (prior_amounts [] sampleEvent) ≤ sampleEvent.amount)) ∧
    (∀ r ∈ firing_reasons [] sampleEvent sampleFeatureRow,
      r.reason = "amount_spike" → r.severity = 75) :=
  amount_spike_characterization [] sampleEvent sampleFeatureRow

/-- C9: model replacement is NOT atomic for a reader.  `hybridSched`
interleaves one in-flight scoring call (thread 1) with a retrain
(thread 2) and a second scoring call (thread 3); each thread's actions
occur in its program order, the in-flight call's warm-cache check saw a
cached model (so it took exactly the `scorerProg` path), and yet that
one call used the version-1 scaler together with the version-2 model and
threshold — a hybrid of two published artifact versions, which the
specification forbids. -/
theorem model_swap_not_atomic :
    projThread 1 hybridSched = scorerProg ∧
    projThread 2 hybridSched = retrainProg ∧
    projThread 3 hybridSched = reloaderProg ∧
    (runSched initWarm hybridSched).obs.filter (fun o => o.1 = 1) =
      [(1, .model, some 1), (1, .scaler, some 1),
       (1, .model, some 2), (1, .threshold, some 2)] := by
  refine ⟨rfl, rfl, rfl, ?_⟩
  decide

end FraudSystem
